import Mathlib

/-!
# AI Cooking Companion: the screen state machines of `App.jsx`

A shallow embedding of the stateful screen components of `App.jsx`.  Every
React `useState` cell becomes a field of a state record, every event handler
becomes a function on that record, and the effects a handler performs
(`Alert.alert`, `fetch`) are collected in an explicit list.  A network
exchange (`await fetch(..)` followed by `await res.json()`) is represented by
its result: `Except.ok data` for a decoded JSON body, `Except.error msg` for
a rejection carrying `e.message`.

JavaScript numbers that hold step indices are modelled as `Int`.
-/

namespace CookingCompanion

/-! ## Voice-guided cooking mode (`VoiceCookScreen`) -/

/-- State cells of `VoiceCookScreen`: `steps` and `index`. -/
structure VoiceCookState where
  steps : List String
  index : Int
  deriving DecidableEq, Repr

/-- Initial state of `VoiceCookScreen` as written in the `useState` calls. -/
def VoiceCookState.initial : VoiceCookState :=
  { steps := ["Preheat oven to 180°C", "Mix flour and eggs", "Bake 30 minutes"], index := 0 }

/-- A cook session over the given steps, positioned at index `0`. -/
def VoiceCookState.start (steps : List String) : VoiceCookState :=
  { steps := steps, index := 0 }

/-- Handler `nextStep`: `setIndex(i => Math.min(i + 1, steps.length - 1))`. -/
def nextStep (s : VoiceCookState) : VoiceCookState :=
  { s with index := min (s.index + 1) ((s.steps.length : Int) - 1) }

/-- Handler `prevStep`: `setIndex(i => Math.max(i - 1, 0))`. -/
def prevStep (s : VoiceCookState) : VoiceCookState :=
  { s with index := max (s.index - 1) 0 }

/-- The expression `steps[index]` shown by the screen; `none` stands for
JavaScript's `undefined` (index negative or past the end). -/
def currentStep (s : VoiceCookState) : Option String :=
  if 0 ≤ s.index then s.steps[s.index.toNat]? else none

/-- The two buttons of the screen. -/
inductive CookCommand
  | next
  | previous
  deriving DecidableEq, Repr

/-- One button press. -/
def CookCommand.apply : CookCommand → VoiceCookState → VoiceCookState
  | .next, s => nextStep s
  | .previous, s => prevStep s

/-- A finite sequence of button presses, applied left to right. -/
def runCommands (cmds : List CookCommand) (s : VoiceCookState) : VoiceCookState :=
  cmds.foldl (fun acc c => c.apply acc) s

/-- Pressing `Next` `k` times in a row. -/
def nextTimes : Nat → VoiceCookState → VoiceCookState
  | 0, s => s
  | k + 1, s => nextTimes k (nextStep s)

/-! ## Effects and handler outcomes -/

/-- A recipe of the meal planner pool; the source documents the cell as
`each: {id, title, ingredients, nutrients}`. -/
structure UploadedRecipe where
  id : String
  title : String
  ingredients : List String
  nutrients : List (String × Nat)
  deriving DecidableEq, Repr

/-- The object handed to `JSON.stringify` as the body of a `fetch`. -/
inductive RequestBody
  | extract (url : String)
  | caption (image : Option String)
  | mealplan (recipes : List UploadedRecipe) (calories_target : Nat)
  | scan (image : Option String)
  deriving DecidableEq, Repr

/-- An observable effect of an event handler. -/
inductive Effect
  | alert (title : String) (message : Option String)
  | fetch (path : String) (body : RequestBody)
  deriving DecidableEq, Repr

/-- What a handler leaves behind: the new state cells, the effects it
performed in order, and the error it throws (for an `async` handler, the
reason its promise is rejected with); `thrown = none` means the handler
completes normally. -/
structure Outcome (σ : Type) where
  state : σ
  effects : List Effect
  thrown : Option String
  deriving DecidableEq, Repr

/-- JavaScript `!x` for a cell holding `null` or a string: `null` and the
empty string are falsy. -/
def falsy : Option String → Bool
  | none => true
  | some v => v == ""

/-! ## Kitchen profile (`KitchenProfileScreen`) -/

/-- The `profile` cell: two arrays of strings. -/
structure KitchenProfile where
  appliances : List String
  utensils : List String
  deriving DecidableEq, Repr

/-- State cells of `KitchenProfileScreen`. -/
structure KitchenProfileState where
  profile : KitchenProfile
  newItem : String
  deriving DecidableEq, Repr

/-- Initial state of `KitchenProfileScreen`. -/
def KitchenProfileState.initial : KitchenProfileState :=
  { profile := { appliances := ["pan", "oven"], utensils := ["knife", "cutting board"] },
    newItem := "" }

/-- Handler `addItem`: returns at once on an empty `newItem`; otherwise
`setProfile(prev => ({ ...prev, appliances: [...prev.appliances, newItem] }))`
followed by `setNewItem('')`. -/
def addItem (s : KitchenProfileState) : KitchenProfileState :=
  if s.newItem == "" then s
  else
    { profile := { s.profile with appliances := s.profile.appliances ++ [s.newItem] },
      newItem := "" }

/-! ## Post creation (`PostCreateScreen`) -/

/-- Decoded body of a `/caption` response, restricted to the fields of the
interface table; an absent key is `none`. -/
structure CaptionPayload where
  caption : Option String
  tags : Option (List String)
  deriving DecidableEq, Repr

/-- State cells of `PostCreateScreen`.  `caption` is `none` when the cell
holds `undefined` (after `setCaption(data.caption)` with the key absent). -/
structure PostCreateState where
  imageUri : Option String
  caption : Option String
  loading : Bool
  deriving DecidableEq, Repr

/-- Initial state of `PostCreateScreen`. -/
def PostCreateState.initial : PostCreateState :=
  { imageUri := none, caption := some "", loading := false }

/-- The part of `generateCaption` that runs when the awaited exchange is
over: `setCaption(data.caption)` on success, the alert of the `catch` block
on failure, and `setLoading(false)` of the `finally` block in both cases. -/
def generateCaptionResume (response : Except String CaptionPayload) (s : PostCreateState) :
    Outcome PostCreateState :=
  match response with
  | .ok data =>
    { state := { s with caption := data.caption, loading := false }, effects := [], thrown := none }
  | .error message =>
    { state := { s with loading := false },
      effects := [Effect.alert "Error" (some message)], thrown := none }

/-- Handler `generateCaption` run to completion with no other event in between. -/
def generateCaption (response : Except String CaptionPayload) (s : PostCreateState) :
    Outcome PostCreateState :=
  if falsy s.imageUri then
    { state := s, effects := [Effect.alert "Upload a photo first" none], thrown := none }
  else
    let request := Effect.fetch "/caption" (RequestBody.caption s.imageUri)
    let resumed := generateCaptionResume response { s with loading := true }
    { resumed with effects := request :: resumed.effects }

/-- The screen together with the `/caption` exchanges in flight.  Requests
are numbered in the order they are issued. -/
structure CaptionWorld where
  screen : PostCreateState
  issued : Nat
  pending : List Nat
  effects : List Effect
  deriving DecidableEq, Repr

/-- A world with no request issued yet. -/
def CaptionWorld.start (s : PostCreateState) : CaptionWorld :=
  { screen := s, issued := 0, pending := [], effects := [] }

/-- Events of the single-threaded event loop that touch `PostCreateScreen`:
a press of the Generate button (never disabled), and the completion of the
exchange of a request in flight. -/
inductive CaptionEvent
  | press
  | settle (request : Nat) (response : Except String CaptionPayload)

/-- One event.  `press` runs `generateCaption` up to its first `await`;
`settle` resumes the call that issued `request`, and is enabled only while
that request is in flight. -/
def CaptionEvent.step : CaptionEvent → CaptionWorld → Option CaptionWorld
  | .press, w =>
    if falsy w.screen.imageUri then
      some { w with effects := w.effects ++ [Effect.alert "Upload a photo first" none] }
    else
      some { screen := { w.screen with loading := true },
             issued := w.issued + 1,
             pending := w.pending ++ [w.issued],
             effects := w.effects ++
               [Effect.fetch "/caption" (RequestBody.caption w.screen.imageUri)] }
  | .settle request response, w =>
    if request ∈ w.pending then
      let resumed := generateCaptionResume response w.screen
      some { w with screen := resumed.state,
                    pending := w.pending.erase request,
                    effects := w.effects ++ resumed.effects }
    else none

/-- A schedule of events, run in order; `none` when an event is not enabled. -/
def runEvents : List CaptionEvent → CaptionWorld → Option CaptionWorld
  | [], w => some w
  | e :: es, w =>
    match e.step w with
    | some w1 => runEvents es w1
    | none => none

/-! ## Meal planner (`MealPlannerScreen`) -/

/-- One meal of a day of a `/mealplan` response. -/
structure Meal where
  title : String
  servings : Nat
  deriving DecidableEq, Repr

/-- One day of a `/mealplan` response. -/
structure MealDay where
  day : String
  meals : List Meal
  deriving DecidableEq, Repr

/-- Decoded body of a `/mealplan` response, restricted to the fields the
screen reads; an absent key is `none`. -/
structure MealPlanPayload where
  days : Option (List MealDay)
  shopping_list : Option (List String)
  deriving DecidableEq, Repr

/-- State cells of `MealPlannerScreen`. -/
structure MealPlannerState where
  uploadedRecipes : List UploadedRecipe
  plan : Option MealPlanPayload
  loading : Bool
  deriving DecidableEq, Repr

/-- Initial state of `MealPlannerScreen`. -/
def MealPlannerState.initial : MealPlannerState :=
  { uploadedRecipes := [], plan := none, loading := false }

/-- Handler `createPlan`: on an empty `uploadedRecipes` it returns the result of
`Alert.alert('Upload recipes first')`; otherwise `setLoading(true)`, one
`fetch` of `/mealplan`, then `setPlan(data)` on success or the alert of the
`catch` block on failure, and `setLoading(false)` in the `finally` block. -/
def createPlan (response : Except String MealPlanPayload) (s : MealPlannerState) :
    Outcome MealPlannerState :=
  if s.uploadedRecipes.length = 0 then
    { state := s, effects := [Effect.alert "Upload recipes first" none], thrown := none }
  else
    let request := Effect.fetch "/mealplan" (RequestBody.mealplan s.uploadedRecipes 2000)
    let s1 := { s with loading := true }
    match response with
    | .ok data =>
      { state := { s1 with plan := some data, loading := false },
        effects := [request], thrown := none }
    | .error message =>
      { state := { s1 with loading := false },
        effects := [request, Effect.alert "Error" (some message)], thrown := none }

/-- The days stored in the `plan` cell (`plan.days`), empty when there is
no plan or no `days` key. -/
def storedDays (s : MealPlannerState) : List MealDay :=
  match s.plan with
  | none => []
  | some plan => plan.days.getD []

/-- The blocks drawn by `plan.days?.map(..)`: per day its heading `d.day`
and one line per meal. -/
def renderedDays (s : MealPlannerState) : List (String × List String) :=
  match s.plan with
  | none => []
  | some plan =>
    match plan.days with
    | none => []
    | some days =>
      days.map fun d =>
        (d.day, d.meals.map fun m => "- " ++ m.title ++ " (" ++ toString m.servings ++ ")")

/-- The lines of the "Consolidated Shopping List": the `FlatList` over
`plan.shopping_list || []`. -/
def shownShoppingList (s : MealPlannerState) : List String :=
  match s.plan with
  | none => []
  | some plan => (plan.shopping_list.getD []).map fun item => "- " ++ item

/-! ## Scan and cook (`ScanAndCookScreen`) -/

/-- One entry of `recipes` in a `/scan` response. -/
structure ScanRecipe where
  title : String
  matchedIngredients : Option (List String)
  deriving DecidableEq, Repr

/-- Decoded body of a `/scan` response; an absent key is `none`. -/
structure ScanPayload where
  recipes : Option (List ScanRecipe)
  deriving DecidableEq, Repr

/-- State cells of `ScanAndCookScreen`. -/
structure ScanState where
  image : Option String
  suggestions : Option ScanPayload
  deriving DecidableEq, Repr

/-- Initial state of `ScanAndCookScreen`. -/
def ScanState.initial : ScanState :=
  { image := none, suggestions := none }

/-- Handler `getSuggestions`: on a falsy `image` it returns the result of
`Alert.alert('Upload a fridge photo first')`; otherwise one `fetch` of
`/scan`, then `setSuggestions(data)` on success or the alert of the `catch`
block on failure. -/
def getSuggestions (response : Except String ScanPayload) (s : ScanState) : Outcome ScanState :=
  if falsy s.image then
    { state := s, effects := [Effect.alert "Upload a fridge photo first" none], thrown := none }
  else
    let request := Effect.fetch "/scan" (RequestBody.scan s.image)
    match response with
    | .ok data =>
      { state := { s with suggestions := some data }, effects := [request], thrown := none }
    | .error message =>
      { state := s, effects := [request, Effect.alert "Error" (some message)], thrown := none }

/-- The lines drawn by `suggestions.recipes?.map((r, i) => <Text>- {r.title}</Text>)`. -/
def shownSuggestions (s : ScanState) : List String :=
  match s.suggestions with
  | none => []
  | some data =>
    match data.recipes with
    | none => []
    | some recipes => recipes.map fun r => "- " ++ r.title

/-! ## Recipe extractor (`RecipeExtractorScreen`) -/

/-- Decoded body of an `/extract` response, restricted to the fields of the
interface table; an absent key is `none`. -/
structure ExtractPayload where
  title : Option String
  shopping_list : Option (List String)
  steps : Option (List String)
  time_estimate : Option String
  nutrition : Option (List (String × Nat))
  deriving DecidableEq, Repr

/-- How the two awaits of `extract` end: `await fetch(..)` rejects (no
response arrived), or it resolves with a response of HTTP status `status`
and `await res.json()` rejects, or both resolve with a decoded body.  A
rejection carries `e.message`.  The promise of `fetch` resolves for every
HTTP status, error statuses included. -/
inductive ExtractExchange
  | fetchRejected (message : String)
  | jsonRejected (status : Nat) (message : String)
  | decoded (status : Nat) (data : ExtractPayload)
  deriving DecidableEq, Repr

/-- The flag `res.ok` of a response: the status is in the range 200 to 299. -/
def httpOk (status : Nat) : Bool :=
  decide (200 ≤ status ∧ status ≤ 299)

/-- One of the two awaits of `extract` rejects, so control reaches the
`catch` block. -/
def ExtractExchange.rejected : ExtractExchange → Bool
  | .fetchRejected _ => true
  | .jsonRejected _ _ => true
  | .decoded _ _ => false

/-- The exchange failed: no response arrived, or the response has an HTTP
error status (not `res.ok`), or the decoding of its body rejected. -/
def ExtractExchange.failed : ExtractExchange → Bool
  | .fetchRejected _ => true
  | .jsonRejected _ _ => true
  | .decoded status _ => !httpOk status

/-- State cells of `RecipeExtractorScreen`. -/
structure RecipeExtractorState where
  link : String
  result : Option ExtractPayload
  loading : Bool
  deriving DecidableEq, Repr

/-- Initial state of `RecipeExtractorScreen`. -/
def RecipeExtractorState.initial : RecipeExtractorState :=
  { link := "", result := none, loading := false }

/-- Handler `extract`: on an empty `link` it returns the result of
`Alert.alert('Please paste a link or upload a file')`; otherwise
`setLoading(true)`, one `fetch` of `/extract` with body `{ url: link }`, then
`setResult(data)` when both awaits resolve or the alert of the `catch` block
when either rejects, and `setLoading(false)` in the `finally` block.  The
handler never reads the status of the response (there is no `res.ok` test). -/
def extract (exchange : ExtractExchange) (s : RecipeExtractorState) :
    Outcome RecipeExtractorState :=
  if s.link == "" then
    { state := s, effects := [Effect.alert "Please paste a link or upload a file" none],
      thrown := none }
  else
    let request := Effect.fetch "/extract" (RequestBody.extract s.link)
    let s1 := { s with loading := true }
    match exchange with
    | .decoded _ data =>
      { state := { s1 with result := some data, loading := false },
        effects := [request], thrown := none }
    | .fetchRejected message =>
      { state := { s1 with loading := false },
        effects := [request, Effect.alert "Error" (some message)], thrown := none }
    | .jsonRejected _ message =>
      { state := { s1 with loading := false },
        effects := [request, Effect.alert "Error" (some message)], thrown := none }

/-! ## Concrete states and payloads used in the examples -/

/-- A pool with one uploaded recipe, used for concrete runs of `createPlan`. -/
def samplePool : MealPlannerState :=
  { uploadedRecipes := [{ id := "r1", title := "Omelette", ingredients := ["egg"],
                          nutrients := [("calories", 300)] }],
    plan := none, loading := false }

/-- A `/mealplan` payload with a single day and a shopping list. -/
def oneDayPayload (items : List String) : MealPlanPayload :=
  { days := some [{ day := "Mon", meals := [{ title := "Omelette", servings := 1 }] }],
    shopping_list := some items }

/-- A scan screen on which a fridge photo has been set. -/
def sampleScan : ScanState :=
  { image := some "file:///fridge.jpg", suggestions := none }

/-- An extractor screen holding an earlier result and a pasted link. -/
def sampleExtractor : RecipeExtractorState :=
  { link := "https://example.com/v/1",
    result := some { title := some "Shakshuka", shopping_list := some ["egg", "tomato"],
                     steps := some ["Fry", "Simmer"], time_estimate := some "10 min",
                     nutrition := none },
    loading := false }

/-- The decoded JSON body of an error response that carries only an `error`
key: an object with none of the keys of the interface table. -/
def errorBody : ExtractPayload :=
  { title := none, shopping_list := none, steps := none, time_estimate := none,
    nutrition := none }

/-! ## Helper lemmas: cooking mode -/

lemma nextStep_steps (s : VoiceCookState) : (nextStep s).steps = s.steps := rfl

lemma prevStep_steps (s : VoiceCookState) : (prevStep s).steps = s.steps := rfl

lemma apply_steps (c : CookCommand) (s : VoiceCookState) : (c.apply s).steps = s.steps := by
  cases c <;> rfl

/-- The range `0 ≤ index ≤ steps.length - 1` is preserved by one press. -/
lemma apply_inRange (c : CookCommand) (s : VoiceCookState)
    (h0 : 0 ≤ s.index) (h1 : s.index ≤ (s.steps.length : Int) - 1) :
    0 ≤ (c.apply s).index ∧ (c.apply s).index ≤ ((c.apply s).steps.length : Int) - 1 := by
  cases c
  · simp only [CookCommand.apply, nextStep]
    refine ⟨le_min (by omega) (by omega), min_le_right _ _⟩
  · simp only [CookCommand.apply, prevStep]
    refine ⟨le_max_right _ _, max_le (by omega) (by omega)⟩

lemma runCommands_steps (cmds : List CookCommand) (s : VoiceCookState) :
    (runCommands cmds s).steps = s.steps := by
  induction cmds generalizing s with
  | nil => rfl
  | cons c cs ih =>
    show (runCommands cs (c.apply s)).steps = s.steps
    rw [ih, apply_steps]

lemma runCommands_inRange (cmds : List CookCommand) (s : VoiceCookState)
    (h0 : 0 ≤ s.index) (h1 : s.index ≤ (s.steps.length : Int) - 1) :
    0 ≤ (runCommands cmds s).index ∧
      (runCommands cmds s).index ≤ ((runCommands cmds s).steps.length : Int) - 1 := by
  induction cmds generalizing s with
  | nil => exact ⟨h0, h1⟩
  | cons c cs ih =>
    have h := apply_inRange c s h0 h1
    exact ih (c.apply s) h.1 h.2

lemma currentStep_isSome (s : VoiceCookState)
    (h0 : 0 ≤ s.index) (h1 : s.index ≤ (s.steps.length : Int) - 1) :
    (currentStep s).isSome = true := by
  unfold currentStep
  rw [if_pos h0]
  have hlt : s.index.toNat < s.steps.length := by omega
  simp [List.getElem?_eq_getElem hlt]

lemma nextTimes_index (k : Nat) (s : VoiceCookState)
    (h1 : s.index ≤ (s.steps.length : Int) - 1) :
    (nextTimes k s).index = min (s.index + k) ((s.steps.length : Int) - 1) := by
  induction k generalizing s with
  | zero =>
    show s.index = _
    simp [h1]
  | succ k ih =>
    show (nextTimes k (nextStep s)).index = _
    rw [ih (nextStep s) (by simp only [nextStep]; exact min_le_right _ _)]
    simp only [nextStep]
    push_cast
    omega

/-! ## Theorems: cooking mode -/

/-- C1: in a session with `N = steps.length ≥ 1` and an index `0 ≤ i ≤ N-1`,
`nextStep` keeps the steps, sets the index to `min (i+1) (N-1)`, which is
`i+1` when `i < N-1` and is `i` itself (a no-op) when `i = N-1`. -/
theorem nextStep_clamped (s : VoiceCookState) (hN : 1 ≤ s.steps.length)
    (h0 : 0 ≤ s.index) (h1 : s.index ≤ (s.steps.length : Int) - 1) :
    (nextStep s).steps = s.steps ∧
    (nextStep s).index = min (s.index + 1) ((s.steps.length : Int) - 1) ∧
    (s.index < (s.steps.length : Int) - 1 → (nextStep s).index = s.index + 1) ∧
    (s.index = (s.steps.length : Int) - 1 → nextStep s = s) := by
  refine ⟨rfl, rfl, ?_, ?_⟩
  · intro h
    simp only [nextStep]
    omega
  · intro h
    cases s with
    | mk steps index =>
      simp only [nextStep, VoiceCookState.mk.injEq, true_and]
      simp only at h
      omega

/-- Witness of C1 on the initial screen state at its last step. -/
theorem nextStep_clamped_witness :
    (nextStep { VoiceCookState.initial with index := 2 }).index = 2 ∧
    (nextStep VoiceCookState.initial).index = 1 :=
  ⟨(nextStep_clamped { VoiceCookState.initial with index := 2 }
      (by decide) (by decide) (by decide)).2.1.trans (by decide),
   (nextStep_clamped VoiceCookState.initial (by decide) (by decide) (by decide)).2.1.trans
      (by decide)⟩

/-- C2: in a session with `N = steps.length ≥ 1` and an index `0 ≤ i ≤ N-1`,
`prevStep` keeps the steps, sets the index to `max (i-1) 0`, which is `i-1`
when `i > 0` and is `0` (a no-op) when `i = 0`. -/
theorem prevStep_clamped (s : VoiceCookState) (hN : 1 ≤ s.steps.length)
    (h0 : 0 ≤ s.index) (h1 : s.index ≤ (s.steps.length : Int) - 1) :
    (prevStep s).steps = s.steps ∧
    (prevStep s).index = max (s.index - 1) 0 ∧
    (0 < s.index → (prevStep s).index = s.index - 1) ∧
    (s.index = 0 → prevStep s = s) := by
  refine ⟨rfl, rfl, ?_, ?_⟩
  · intro h
    simp only [prevStep]
    omega
  · intro h
    cases s with
    | mk steps index =>
      simp only [prevStep, VoiceCookState.mk.injEq, true_and]
      simp only at h
      omega

/-- Witness of C2 on the initial screen state. -/
theorem prevStep_clamped_witness :
    (prevStep VoiceCookState.initial).index = 0 ∧
    (prevStep { VoiceCookState.initial with index := 2 }).index = 1 :=
  ⟨(prevStep_clamped VoiceCookState.initial (by decide) (by decide) (by decide)).2.1.trans
      (by decide),
   (prevStep_clamped { VoiceCookState.initial with index := 2 }
      (by decide) (by decide) (by decide)).2.1.trans (by decide)⟩

/-- C3: index invariant.  For a session over `steps` with at least one step,
started at index `0`, after any finite sequence of `next` / `previous`
presses the steps are unchanged, the index lies in `[0, N-1]`, and
`steps[index]` is a defined step. -/
theorem index_invariant (steps : List String) (hN : 1 ≤ steps.length)
    (cmds : List CookCommand) :
    (runCommands cmds (VoiceCookState.start steps)).steps = steps ∧
    0 ≤ (runCommands cmds (VoiceCookState.start steps)).index ∧
    (runCommands cmds (VoiceCookState.start steps)).index ≤ (steps.length : Int) - 1 ∧
    (currentStep (runCommands cmds (VoiceCookState.start steps))).isSome = true := by
  have hs := runCommands_steps cmds (VoiceCookState.start steps)
  have hr := runCommands_inRange cmds (VoiceCookState.start steps)
    (by simp [VoiceCookState.start]) (by simp only [VoiceCookState.start]; omega)
  refine ⟨hs, hr.1, ?_, currentStep_isSome _ hr.1 hr.2⟩
  have h2 := hr.2
  rw [hs] at h2
  exact h2

/-- Witness of C3: a run of five presses on a three-step session. -/
theorem index_invariant_witness :
    (currentStep (runCommands [.next, .next, .next, .previous, .next]
      (VoiceCookState.start ["a", "b", "c"]))).isSome = true :=
  (index_invariant ["a", "b", "c"] (by decide)
    [.next, .next, .next, .previous, .next]).2.2.2

/-- C4: for a session over `steps` with `N ≥ 1` steps started at index `0`,
pressing `Next` `k` times leaves the index at `min k (N-1)`; for `k ≥ N-1`
it is `N-1`; and `prevStep` at index `0` leaves the index at `0`. -/
theorem nextTimes_from_start (steps : List String) (hN : 1 ≤ steps.length) (k : Nat) :
    (nextTimes k (VoiceCookState.start steps)).index = min (k : Int) ((steps.length : Int) - 1) ∧
    (steps.length - 1 ≤ k →
      (nextTimes k (VoiceCookState.start steps)).index = (steps.length : Int) - 1) ∧
    (prevStep (VoiceCookState.start steps)).index = 0 := by
  have h := nextTimes_index k (VoiceCookState.start steps)
    (by simp only [VoiceCookState.start]; omega)
  simp only [VoiceCookState.start, zero_add] at h
  refine ⟨h, ?_, by simp [prevStep, VoiceCookState.start]⟩
  intro hk
  simp only [VoiceCookState.start]
  rw [h]
  omega

/-- Witness of C4: with `N = 3`, three presses of `Next` leave the index at `2`. -/
theorem nextTimes_from_start_witness :
    (nextTimes 3 (VoiceCookState.start ["s1", "s2", "s3"])).index = 2 ∧
    (prevStep (VoiceCookState.start ["s1", "s2", "s3"])).index = 0 :=
  ⟨(nextTimes_from_start ["s1", "s2", "s3"] (by decide) 3).1.trans (by decide),
   (nextTimes_from_start ["s1", "s2", "s3"] (by decide) 3).2.2⟩

/-! ## Theorems: meal planner -/

/-- C5 (counterexample): on the initial planner state, whose pool is empty,
`createPlan` does not fail with `EmptyPoolError`; it completes normally after
one alert. -/
theorem createPlan_emptyPool_not_error :
    MealPlannerState.initial.uploadedRecipes = [] ∧
    ¬ ((createPlan (.ok (oneDayPayload [])) MealPlannerState.initial).thrown
        = some "EmptyPoolError") ∧
    (createPlan (.ok (oneDayPayload [])) MealPlannerState.initial).thrown = none ∧
    (createPlan (.ok (oneDayPayload [])) MealPlannerState.initial).effects
        = [Effect.alert "Upload recipes first" none] := by
  refine ⟨rfl, ?_, rfl, rfl⟩
  intro h
  cases h

/-- C5 (amended): with an empty recipe pool `createPlan` shows the alert
"Upload recipes first" and completes normally (no error is thrown); the
state, in particular the stored plan, is unchanged and no request is
issued. -/
theorem createPlan_emptyPool (response : Except String MealPlanPayload) (s : MealPlannerState)
    (h : s.uploadedRecipes = []) :
    (createPlan response s).thrown = none ∧
    (createPlan response s).effects = [Effect.alert "Upload recipes first" none] ∧
    (createPlan response s).state = s ∧
    (createPlan response s).state.plan = s.plan ∧
    (∀ path body, Effect.fetch path body ∉ (createPlan response s).effects) := by
  have hc : createPlan response s =
      { state := s, effects := [Effect.alert "Upload recipes first" none], thrown := none } := by
    simp [createPlan, h]
  rw [hc]
  refine ⟨rfl, rfl, rfl, rfl, ?_⟩
  intro path body hmem
  simp at hmem

/-- Witness of C5 (amended) on the initial planner state. -/
theorem createPlan_emptyPool_witness :
    (createPlan (.error "Network request failed") MealPlannerState.initial).state
      = MealPlannerState.initial :=
  (createPlan_emptyPool (.error "Network request failed") MealPlannerState.initial rfl).2.2.1

/-- C6 (counterexample): a payload with one day (fewer than seven) is stored
and drawn with one day, not seven. -/
theorem createPlan_oneDay_not_padded :
    ((oneDayPayload []).days.getD []).length < 7 ∧
    ¬ ((storedDays (createPlan (.ok (oneDayPayload [])) samplePool).state).length = 7) ∧
    ¬ ((renderedDays (createPlan (.ok (oneDayPayload [])) samplePool).state).length = 7) := by
  refine ⟨by decide, ?_, ?_⟩ <;> decide

/-- C6 (amended): after a successful `createPlan` on a non-empty pool the
stored plan is the payload itself, so the plan stored and drawn has exactly
as many days as the payload's `days` (no padding to seven). -/
theorem createPlan_stores_payload (data : MealPlanPayload) (days : List MealDay)
    (s : MealPlannerState) (hpool : s.uploadedRecipes ≠ []) (hdays : data.days = some days) :
    (createPlan (.ok data) s).state.plan = some data ∧
    storedDays (createPlan (.ok data) s).state = days ∧
    (renderedDays (createPlan (.ok data) s).state).length = days.length ∧
    (renderedDays (createPlan (.ok data) s).state).map Prod.fst = days.map MealDay.day := by
  have hlen : ¬ s.uploadedRecipes.length = 0 := by
    intro h0
    exact hpool (List.length_eq_zero.mp h0)
  have hc : (createPlan (.ok data) s).state.plan = some data := by
    simp [createPlan, hlen]
  refine ⟨hc, ?_, ?_, ?_⟩
  · simp [storedDays, hc, hdays]
  · simp [renderedDays, hc, hdays]
  · simp [renderedDays, hc, hdays, List.map_map, Function.comp_def]

/-- Witness of C6 (amended): the one-day payload is stored with one day. -/
theorem createPlan_stores_payload_witness :
    (renderedDays (createPlan (.ok (oneDayPayload [])) samplePool).state).length = 1 :=
  (createPlan_stores_payload (oneDayPayload []) _ samplePool (by decide) rfl).2.2.1

/-- C7 (counterexample): two plans held by the planner with identical `days`
whose shopping lists shown differ. -/
theorem shoppingList_not_function_of_days :
    storedDays (createPlan (.ok (oneDayPayload ["egg"])) samplePool).state
      = storedDays (createPlan (.ok (oneDayPayload ["milk"])) samplePool).state ∧
    shownShoppingList (createPlan (.ok (oneDayPayload ["egg"])) samplePool).state
      ≠ shownShoppingList (createPlan (.ok (oneDayPayload ["milk"])) samplePool).state := by
  refine ⟨by decide, by decide⟩

/-- C7 (amended): the shopping list shown is the `shopping_list` of the
payload as supplied (empty when the key is absent), one line per item; two
payloads with the same `shopping_list` give the same list shown, whatever
their `days`. -/
theorem shoppingList_from_payload (data other : MealPlanPayload) (s : MealPlannerState)
    (hpool : s.uploadedRecipes ≠ []) (hsame : data.shopping_list = other.shopping_list) :
    shownShoppingList (createPlan (.ok data) s).state
      = (data.shopping_list.getD []).map (fun item => "- " ++ item) ∧
    shownShoppingList (createPlan (.ok data) s).state
      = shownShoppingList (createPlan (.ok other) s).state := by
  have hlen : ¬ s.uploadedRecipes.length = 0 := by
    intro h0
    exact hpool (List.length_eq_zero.mp h0)
  have key : ∀ d : MealPlanPayload, shownShoppingList (createPlan (.ok d) s).state
      = (d.shopping_list.getD []).map (fun item => "- " ++ item) := by
    intro d
    simp [createPlan, hlen, shownShoppingList]
  refine ⟨key data, ?_⟩
  rw [key data, key other, hsame]

/-- Witness of C7 (amended): same shopping list, different days. -/
theorem shoppingList_from_payload_witness :
    shownShoppingList (createPlan (.ok (oneDayPayload ["egg"])) samplePool).state
      = shownShoppingList
          (createPlan (.ok { days := none, shopping_list := some ["egg"] }) samplePool).state :=
  (shoppingList_from_payload (oneDayPayload ["egg"])
    { days := none, shopping_list := some ["egg"] } samplePool (by decide) rfl).2

/-! ## Theorems: post creation -/

/-- C8 (counterexample): two `/caption` calls, the second issued while the
first is pending; when the first response arrives after the second, the
caption cell ends up holding the first response's data. -/
theorem caption_stale_response_wins :
    (runEvents
        [.press, .press,
         .settle 1 (.ok { caption := some "second", tags := none }),
         .settle 0 (.ok { caption := some "first", tags := none })]
        (CaptionWorld.start { PostCreateState.initial with imageUri := some "file:///p.jpg" })
      ).map (fun w => (w.screen.caption, w.pending))
      = some (some "first", []) ∧
    (some "first" : Option String) ≠ some "second" := by
  refine ⟨by decide, by decide⟩

/-- C8 (amended): last response wins.  For two `/caption` calls where the
second is issued while the first is pending and both exchanges succeed, the
caption cell ends up holding the data of the response that completes last:
the second response's data when the responses complete in issue order, the
first response's data when the first response arrives after the second.  In
both orders no request is left pending and `loading` is false. -/
theorem caption_last_response_wins (s : PostCreateState) (first second : CaptionPayload)
    (himg : falsy s.imageUri = false) :
    (runEvents [.press, .press, .settle 0 (.ok first), .settle 1 (.ok second)]
        (CaptionWorld.start s)).map (fun w => (w.screen, w.pending))
      = some ({ s with caption := second.caption, loading := false }, []) ∧
    (runEvents [.press, .press, .settle 1 (.ok second), .settle 0 (.ok first)]
        (CaptionWorld.start s)).map (fun w => (w.screen, w.pending))
      = some ({ s with caption := first.caption, loading := false }, []) := by
  constructor
  · simp [runEvents, CaptionWorld.start, CaptionEvent.step, himg, generateCaptionResume]
  · simp [runEvents, CaptionWorld.start, CaptionEvent.step, himg, generateCaptionResume]

/-- Witness of C8 (amended): responses completing in issue order. -/
theorem caption_last_response_wins_witness :
    (runEvents
        [.press, .press,
         .settle 0 (.ok { caption := some "first", tags := none }),
         .settle 1 (.ok { caption := some "second", tags := none })]
        (CaptionWorld.start { PostCreateState.initial with imageUri := some "file:///p.jpg" })
      ).map (fun w => (w.screen, w.pending))
      = some ({ imageUri := some "file:///p.jpg", caption := some "second", loading := false },
              []) :=
  (caption_last_response_wins
    { PostCreateState.initial with imageUri := some "file:///p.jpg" }
    { caption := some "first", tags := none } { caption := some "second", tags := none }
    (by decide)).1

/-! ## Theorems: scan and cook -/

/-- C9 (counterexample): an entry with an empty `title` is not dropped; the
payload with entries titled "" and "Omelette" is shown as two lines. -/
theorem getSuggestions_keeps_empty_title :
    shownSuggestions
        (getSuggestions
          (.ok { recipes := some [{ title := "", matchedIngredients := none },
                                  { title := "Omelette", matchedIngredients := none }] })
          sampleScan).state
      = ["- ", "- Omelette"] ∧
    shownSuggestions
        (getSuggestions
          (.ok { recipes := some [{ title := "", matchedIngredients := none },
                                  { title := "Omelette", matchedIngredients := none }] })
          sampleScan).state
      ≠ (([{ title := "", matchedIngredients := none },
           { title := "Omelette", matchedIngredients := none }] : List ScanRecipe).filter
          (fun r => r.title != "")).map (fun r => "- " ++ r.title) := by
  refine ⟨by decide, by decide⟩

/-- C9 (amended): after a successful `getSuggestions` on a screen with a
photo, the suggestions shown are all of the payload's `recipes` entries in
their original order, one line per entry; no entry is dropped, so the list
shown equals the list of the entries with a non-empty `title` exactly when
no entry has an empty `title`. -/
theorem getSuggestions_shows_all (data : ScanPayload) (recipes : List ScanRecipe)
    (s : ScanState) (himg : falsy s.image = false) (hrec : data.recipes = some recipes) :
    shownSuggestions (getSuggestions (.ok data) s).state
      = recipes.map (fun r => "- " ++ r.title) ∧
    (shownSuggestions (getSuggestions (.ok data) s).state).length = recipes.length ∧
    (shownSuggestions (getSuggestions (.ok data) s).state
        = (recipes.filter (fun r => r.title != "")).map (fun r => "- " ++ r.title)
      ↔ ∀ r ∈ recipes, r.title ≠ "") := by
  have key : shownSuggestions (getSuggestions (.ok data) s).state
      = recipes.map (fun r => "- " ++ r.title) := by
    simp [getSuggestions, himg, shownSuggestions, hrec]
  refine ⟨key, by rw [key, List.length_map], ?_⟩
  rw [key]
  constructor
  · intro h
    have hlen := congrArg List.length h
    rw [List.length_map, List.length_map] at hlen
    have hall := List.filter_length_eq_length.mp hlen.symm
    intro r hr
    simpa using hall r hr
  · intro h
    have hfil : recipes.filter (fun r => r.title != "") = recipes :=
      List.filter_eq_self.mpr (fun r hr => by simpa using h r hr)
    rw [hfil]

/-- Witness of C9 (amended). -/
theorem getSuggestions_shows_all_witness :
    shownSuggestions
        (getSuggestions
          (.ok { recipes := some [{ title := "", matchedIngredients := none }] })
          sampleScan).state
      = ["- "] :=
  (getSuggestions_shows_all
    { recipes := some [{ title := "", matchedIngredients := none }] }
    [{ title := "", matchedIngredients := none }] sampleScan (by decide) rfl).1

/-! ## Theorems: kitchen profile -/

/-- C10 (counterexample): adding "pan" to the initial profile, whose
appliances are duplicate-free, yields a list holding "pan" twice. -/
theorem addItem_creates_duplicate :
    KitchenProfileState.initial.profile.appliances.Nodup ∧
    (addItem { KitchenProfileState.initial with newItem := "pan" }).profile.appliances
      = ["pan", "oven", "pan"] ∧
    ¬ (addItem { KitchenProfileState.initial with newItem := "pan" }).profile.appliances.Nodup := by
  refine ⟨by decide, by decide, by decide⟩

/-- C10 (amended): `appliances` is an ordered list.  `addItem` with a
non-empty input appends the input at the end (one entry more), with an empty
input it changes nothing; on a profile without duplicates the result is
without duplicates exactly when the input is empty or not already present. -/
theorem addItem_appends (s : KitchenProfileState) (hnodup : s.profile.appliances.Nodup) :
    (s.newItem ≠ "" →
      (addItem s).profile.appliances = s.profile.appliances ++ [s.newItem] ∧
      (addItem s).profile.utensils = s.profile.utensils ∧ (addItem s).newItem = "") ∧
    (s.newItem = "" → addItem s = s) ∧
    ((addItem s).profile.appliances.Nodup ↔
      (s.newItem = "" ∨ s.newItem ∉ s.profile.appliances)) := by
  by_cases h : s.newItem = ""
  · have hs : addItem s = s := by simp [addItem, h]
    refine ⟨fun hne => absurd h hne, fun _ => hs, ?_⟩
    rw [hs]
    exact ⟨fun _ => Or.inl h, fun _ => hnodup⟩
  · have hs : addItem s =
        { profile := { s.profile with appliances := s.profile.appliances ++ [s.newItem] },
          newItem := "" } := by
      simp [addItem, h]
    refine ⟨fun _ => by rw [hs]; exact ⟨rfl, rfl, rfl⟩, fun he => absurd he h, ?_⟩
    rw [hs]
    simp only
    rw [List.nodup_append]
    constructor
    · rintro ⟨_, _, hdis⟩
      right
      intro hmem
      exact hdis hmem (List.mem_singleton_self _)
    · intro hor
      rcases hor with he | hnot
      · exact absurd he h
      · refine ⟨hnodup, List.nodup_singleton _, ?_⟩
        intro a ha hb
        rw [List.mem_singleton] at hb
        subst hb
        exact hnot ha

/-- Witness of C10 (amended): adding "air fryer" to the initial profile. -/
theorem addItem_appends_witness :
    (addItem { KitchenProfileState.initial with newItem := "air fryer" }).profile.appliances.Nodup :=
  (addItem_appends { KitchenProfileState.initial with newItem := "air fryer" }
    (by decide)).2.2.mpr (Or.inr (by decide))

/-! ## Theorems: recipe extractor -/

lemma extract_of_link (exchange : ExtractExchange) (s : RecipeExtractorState)
    (hlink : s.link ≠ "") :
    extract exchange s =
      match exchange with
      | .decoded _ data =>
        { state := { s with result := some data, loading := false },
          effects := [Effect.fetch "/extract" (RequestBody.extract s.link)], thrown := none }
      | .fetchRejected message =>
        { state := { s with loading := false },
          effects := [Effect.fetch "/extract" (RequestBody.extract s.link),
                      Effect.alert "Error" (some message)], thrown := none }
      | .jsonRejected _ message =>
        { state := { s with loading := false },
          effects := [Effect.fetch "/extract" (RequestBody.extract s.link),
                      Effect.alert "Error" (some message)], thrown := none } := by
  cases exchange <;> simp [extract, hlink]

/-- C11 (counterexample): the `/extract` request fails with HTTP status 500
and a JSON error body; with a non-empty link and an earlier result stored,
`extract` replaces the stored `result` by the decoded error body. -/
theorem extract_http_error_overwrites :
    sampleExtractor.link ≠ "" ∧
    (ExtractExchange.decoded 500 errorBody).failed = true ∧
    (extract (.decoded 500 errorBody) sampleExtractor).state.result = some errorBody ∧
    (extract (.decoded 500 errorBody) sampleExtractor).state.result ≠ sampleExtractor.result := by
  refine ⟨by decide, by decide, by decide, by decide⟩

/-- C11 (amended): with a non-empty link, when `fetch` rejects or the
decoding of the body rejects, the stored `result` (and the link) is exactly
as before the call, one request was issued and one "Error" alert is shown;
when both awaits resolve, the decoded body replaces the stored `result`
whatever the HTTP status of the response, error statuses included.  With a
non-empty link `loading` is false once the call has finished, on every
outcome.  With an empty link the state (so `result` and `loading`) is
unchanged and no request is issued.  The call never throws. -/
theorem extract_failure_atomic (exchange : ExtractExchange) (s : RecipeExtractorState) :
    (s.link ≠ "" → exchange.rejected = true →
      (extract exchange s).state.result = s.result ∧
      (extract exchange s).state.link = s.link ∧
      (∃ message, (extract exchange s).effects =
        [Effect.fetch "/extract" (RequestBody.extract s.link),
         Effect.alert "Error" (some message)])) ∧
    (s.link ≠ "" → ∀ status data, exchange = .decoded status data →
      (extract exchange s).state.result = some data ∧
      (extract exchange s).effects = [Effect.fetch "/extract" (RequestBody.extract s.link)]) ∧
    (s.link ≠ "" → (extract exchange s).state.loading = false) ∧
    (s.link = "" →
      (extract exchange s).state = s ∧
      ∀ path body, Effect.fetch path body ∉ (extract exchange s).effects) ∧
    (extract exchange s).thrown = none := by
  refine ⟨?_, ?_, ?_, ?_, ?_⟩
  · intro hlink hrej
    rw [extract_of_link exchange s hlink]
    cases exchange with
    | decoded status data => simp [ExtractExchange.rejected] at hrej
    | fetchRejected message => exact ⟨rfl, rfl, message, rfl⟩
    | jsonRejected status message => exact ⟨rfl, rfl, message, rfl⟩
  · intro hlink status data hdata
    rw [extract_of_link exchange s hlink, hdata]
    exact ⟨rfl, rfl⟩
  · intro hlink
    rw [extract_of_link exchange s hlink]
    cases exchange <;> rfl
  · intro hlink
    have hc : extract exchange s =
        { state := s, effects := [Effect.alert "Please paste a link or upload a file" none],
          thrown := none } := by
      simp [extract, hlink]
    rw [hc]
    refine ⟨rfl, ?_⟩
    intro path body hmem
    simp at hmem
  · by_cases hlink : s.link = ""
    · simp [extract, hlink]
    · rw [extract_of_link exchange s hlink]
      cases exchange <;> rfl

/-- Witness of C11 (amended): a body that fails to decode leaves the earlier
result in place and `loading` false; an empty link changes nothing. -/
theorem extract_failure_atomic_witness :
    (extract (.jsonRejected 200 "JSON Parse error: Unexpected token") sampleExtractor).state.result
      = sampleExtractor.result ∧
    (extract (.jsonRejected 200 "JSON Parse error: Unexpected token") sampleExtractor).state.loading
      = false ∧
    (extract (.fetchRejected "Network request failed") RecipeExtractorState.initial).state
      = RecipeExtractorState.initial :=
  ⟨((extract_failure_atomic (.jsonRejected 200 "JSON Parse error: Unexpected token")
        sampleExtractor).1 (by decide) rfl).1,
   (extract_failure_atomic (.jsonRejected 200 "JSON Parse error: Unexpected token")
        sampleExtractor).2.2.1 (by decide),
   ((extract_failure_atomic (.fetchRejected "Network request failed")
        RecipeExtractorState.initial).2.2.2.1 rfl).1⟩

end CookingCompanion
